import Mathlib

/-!
Shallow embedding of the two media pages (`src/client/src/pages/marches.tsx`
and its Music-page twin) of the `ataturk` repository, together with proofs
about the upload form, the delete flow and the shared playback handles.

Each page component keeps React state (`selectedFile`, `marchName`/`musicName`,
`playingAudio`, `playingVideo`), refs to one shared `<audio>` and one shared
`<video>` element, and dispatches toasts, query invalidations and HTTP
requests.  We embed that state as a record `PageState` and each event handler
as a pure function `PageState → PageState × List Effect`, where `Effect`
records the toasts, query invalidations and network requests the handler
fires.  The two pages differ only in the category tag, the asset directory
and the toast wording, captured by a `PageCfg`; the one structural difference
between them — the favorite-row click site — is embedded separately for each
page (`onMarchFavoriteClick`, `onMusicFavoriteClick`).
-/

/-- Model of the JS `File` object as far as the pages read it: its `name`
and its MIME `type`. -/
structure JsFile where
  name : String
  type : String
deriving DecidableEq, Repr

/-- Modelled from the spec: `MusicFile` comes from the shared schema module
(`@shared/schema`), which is not under `src/`; the spec's data model gives a
`MediaFile` an identifier, display name, original filename, stored filename
and category. -/
structure MusicFile where
  id : String
  name : String
  originalName : String
  filename : String
  category : String
deriving DecidableEq, Repr

/-- Modelled from the spec: `FavoriteMarch`/`FavoriteMusic` come from the
shared schema module (`@shared/schema`), which is not under `src/`; the
spec's data model gives a `FavoriteTrack` an identifier, title, optional
artist, description and optional filename. -/
structure FavoriteTrack where
  id : String
  title : String
  artist : Option String
  description : String
  filename : Option String
deriving DecidableEq, Repr

/-- State of one shared media element (`<audio>` or `<video>`): the source
last assigned to it (`none` before any assignment) and whether `play()` has
been called without a later `pause()`. -/
structure MediaElement where
  src : Option String
  playing : Bool
deriving DecidableEq, Repr

/-- Page-local React state of one page instance, plus the shared media
elements the page's refs point at and the currently displayed uploaded-files
list (the last completed fetch of the list query). -/
structure PageState where
  selectedFile : Option JsFile
  nameField : String
  fileInputValue : String
  playingAudio : Option String
  playingVideo : Option String
  audioEl : MediaElement
  videoEl : MediaElement
  displayedFiles : List MusicFile
deriving DecidableEq, Repr

/-- An HTTP request dispatched by a mutation: the upload `POST` with its
three multipart fields, or the `DELETE` by id. -/
inductive Request where
  | post (url : String) (file : JsFile) (name : String) (ty : String)
  | delete (url : String)
deriving DecidableEq, Repr

/-- An observable side effect fired by a handler: a toast (with its title,
description and whether it used the destructive variant), a query-cache
invalidation, or a network request. -/
inductive Effect where
  | toast (title description : String) (destructive : Bool)
  | invalidate (queryKey : String)
  | request (r : Request)
deriving DecidableEq, Repr

/-- A JS runtime error.  The only one this development needs is the
`TypeError` thrown by reading a property of `undefined`. -/
inductive JsError where
  | typeError
deriving DecidableEq, Repr

/-- Per-page parameters: the category tag sent with uploads, the directory
favorite videos are served from, and the page-specific toast wording. -/
structure PageCfg where
  uploadType : String
  videoDir : String
  uploadSuccessMsg : String
  deleteSuccessMsg : String
deriving DecidableEq, Repr

/-- Configuration of the Marches page (`marches.tsx`). -/
def marchesCfg : PageCfg :=
  { uploadType := "march", videoDir := "/videos/marches/",
    uploadSuccessMsg := "Marş dosyası yüklendi",
    deleteSuccessMsg := "Marş dosyası silindi" }

/-- Configuration of the Music page. -/
def musicCfg : PageCfg :=
  { uploadType := "music", videoDir := "/videos/music/",
    uploadSuccessMsg := "Müzik dosyası yüklendi",
    deleteSuccessMsg := "Müzik dosyası silindi" }

/-- Page state right after mount: empty draft, both playback markers empty,
no source ever assigned to either element. -/
def initialState : PageState :=
  { selectedFile := none, nameField := "", fileInputValue := "",
    playingAudio := none, playingVideo := none,
    audioEl := { src := none, playing := false },
    videoEl := { src := none, playing := false },
    displayedFiles := [] }

/-- Model of JS `String.prototype.endsWith`, computed on the character
list.  (Core `String.endsWith` is byte-position based and does not reduce
in the kernel, so we use the list form.) -/
def strEndsWith (s suffix : String) : Bool :=
  suffix.data.isSuffixOf s.data

/-- Model of JS `String.prototype.trim`: strip leading and trailing
whitespace. -/
def jsTrim (s : String) : String :=
  String.mk (((s.data.dropWhile Char.isWhitespace).reverse.dropWhile
    Char.isWhitespace).reverse)

/-- Character class `[^/.]` of the regex in `handleFileSelect`. -/
def extChar (c : Char) : Bool :=
  c != '.' && c != '/'

/-- Model of `file.name.replace(/\.[^\/.]+$/, "")` from `handleFileSelect`
(line 92): the regex matches a final `.` followed by one or more characters
that are neither `.` nor `/`, anchored at the end of the string, and the
match is deleted; if no such match exists the name is returned unchanged.
Scanning the reversed character list, the maximal trailing run of `[^/.]`
characters is the candidate extension; it is removed together with the dot
before it exactly when it is non-empty and that dot exists. -/
def stripExt (s : String) : String :=
  match s.data.reverse.takeWhile extChar, s.data.reverse.dropWhile extChar with
  | _ :: _, '.' :: rest => String.mk rest.reverse
  | _, _ => s

/-- Character class of the spec's reading: an extension is a non-empty run
of non-dot characters. -/
def specExtChar (c : Char) : Bool :=
  c != '.'

/-- Written from the spec's words, for comparison with `stripExt`: the name
with its longest trailing `.ext` suffix removed, where `ext` is a non-empty
run of characters containing no dot (so the suffix starts at the last dot);
a name with no such suffix is returned unchanged. -/
def specStripName (s : String) : String :=
  match s.data.reverse.takeWhile specExtChar,
      s.data.reverse.dropWhile specExtChar with
  | _ :: _, '.' :: rest => String.mk rest.reverse
  | _, _ => s

/-- The MIME allow-set of `handleFileSelect` (line 89). -/
def allowedTypes : List String :=
  ["audio/mpeg", "audio/mp3", "audio/mp4", "video/mp4"]

/-- Embedding of `handleFileSelect` (lines 86-101, identical on both pages).
The argument `files` is `event.target.files`; `files.head?` is
`event.target.files?.[0]`, covering both a `null` file list and an empty
one.  With no file the handler does nothing; with a file of an allowed MIME
type it stores the file and auto-derives the name; otherwise it only fires
the destructive toast. -/
def handleFileSelect (st : PageState) (files : List JsFile) :
    PageState × List Effect :=
  match files.head? with
  | none => (st, [])
  | some file =>
    if allowedTypes.contains file.type then
      ({ st with selectedFile := some file, nameField := stripExt file.name },
       [])
    else
      (st, [Effect.toast "Hata" "Sadece MP3 ve MP4 dosyaları kabul edilir" true])

/-- Embedding of `handleUpload` (lines 103-119).  `!selectedFile ||
!marchName.trim()` blocks the submit with a destructive toast; otherwise a
multipart `POST /api/music-files` with fields `file`, `name` (trimmed) and
`type` (the page's category) is dispatched via the upload mutation. -/
def handleUpload (cfg : PageCfg) (st : PageState) : PageState × List Effect :=
  match st.selectedFile with
  | none => (st, [Effect.toast "Hata" "Lütfen dosya seçin ve isim girin" true])
  | some file =>
    if jsTrim st.nameField = "" then
      (st, [Effect.toast "Hata" "Lütfen dosya seçin ve isim girin" true])
    else
      (st, [Effect.request
        (Request.post "/api/music-files" file (jsTrim st.nameField)
          cfg.uploadType)])

/-- Embedding of `handlePlay` (lines 121-132): the audio toggle.  Clicking
the currently playing id pauses the shared audio element and clears the
marker; any other click assigns the element's `src`, starts playback and
marks the id.  The element refs are modelled as present, which they are for
every reachable click (both elements are rendered unconditionally in the
page's JSX). -/
def handlePlay (audioUrl id : String) (st : PageState) : PageState :=
  if st.playingAudio = some id then
    { st with audioEl := { st.audioEl with playing := false },
              playingAudio := none }
  else
    { st with audioEl := { src := some audioUrl, playing := true },
              playingAudio := some id }

/-- Embedding of `handlePlayVideo` (lines 146-157): the video toggle,
structurally identical to `handlePlay` on the shared video element. -/
def handlePlayVideo (videoUrl id : String) (st : PageState) : PageState :=
  if st.playingVideo = some id then
    { st with videoEl := { st.videoEl with playing := false },
              playingVideo := none }
  else
    { st with videoEl := { src := some videoUrl, playing := true },
              playingVideo := some id }

/-- Embedding of `handlePlayFavorite` (lines 134-144): a filename ending in
`.mp4` is routed to `handlePlayVideo` under the page's video directory;
anything else only fires the informational toast. -/
def handlePlayFavorite (cfg : PageCfg) (filename id : String)
    (st : PageState) : PageState × List Effect :=
  if strEndsWith filename ".mp4" then
    (handlePlayVideo (cfg.videoDir ++ filename) id st, [])
  else
    (st, [Effect.toast "Bilgi" (filename ++ " çalmak için gerçek dosya gerekiyor")
      false])

/-- Embedding of the Marches favorite-row click site (line 242):
`handlePlayFavorite(march.filename, march.id)` passes the filename
unguarded.  Modelled from the spec in one respect: `FavoriteMarch` lives in
the shared schema module that is not under `src/`, and per the spec its
`filename` is optional — when it is missing, `filename.endsWith('.mp4')`
inside the handler reads a property of `undefined` and throws a
`TypeError`. -/
def onMarchFavoriteClick (fav : FavoriteTrack) (st : PageState) :
    Except JsError (PageState × List Effect) :=
  match fav.filename with
  | none => Except.error JsError.typeError
  | some f => Except.ok (handlePlayFavorite marchesCfg f fav.id st)

/-- Embedding of the Music favorite-row click site (part_000 line 245):
`handlePlayFavorite(music.filename || "", music.id)` coerces a missing (or
empty) filename to `""` before calling the handler. -/
def onMusicFavoriteClick (fav : FavoriteTrack) (st : PageState) :
    Except JsError (PageState × List Effect) :=
  Except.ok (handlePlayFavorite musicCfg (fav.filename.getD "") fav.id st)

/-- Embedding of the `<audio>` element's `onEnded` callback (line 318):
`setPlayingAudio(null)`. -/
def audioOnEnded (st : PageState) : PageState :=
  { st with playingAudio := none }

/-- Embedding of the `<audio>` element's `onError` callback (line 319):
`setPlayingAudio(null)`. -/
def audioOnPlaybackError (st : PageState) : PageState :=
  { st with playingAudio := none }

/-- Embedding of the `<video>` element's `onEnded` callback (line 307):
`setPlayingVideo(null)`. -/
def videoOnEnded (st : PageState) : PageState :=
  { st with playingVideo := none }

/-- Embedding of the `<video>` element's `onError` callback (line 308):
`setPlayingVideo(null)`. -/
def videoOnPlaybackError (st : PageState) : PageState :=
  { st with playingVideo := none }

/-- Outcome of a `fetch` call as the mutation functions observe it: a
response carrying its `ok` flag, or a rejected promise (network error). -/
inductive FetchOutcome where
  | response (ok : Bool)
  | networkError
deriving DecidableEq, Repr

/-- Whether a mutation function settles successfully on the given fetch
outcome.  Both `mutationFn`s throw on `!response.ok` (lines 40 and 68) and
a rejected fetch propagates, so react-query runs `onSuccess` exactly when
the response arrived with `ok`. -/
def mutationSucceeds : FetchOutcome → Bool
  | FetchOutcome.response ok => ok
  | FetchOutcome.networkError => false

/-- Embedding of `uploadMutation.onSuccess` (lines 43-52): invalidate the
list query, clear the selected file, the name field and the file input
control, and toast the confirmation. -/
def uploadOnSuccess (cfg : PageCfg) (st : PageState) :
    PageState × List Effect :=
  ({ st with selectedFile := none, nameField := "", fileInputValue := "" },
   [Effect.invalidate "/api/music-files",
    Effect.toast "Başarılı" cfg.uploadSuccessMsg false])

/-- Embedding of `uploadMutation.onError` (lines 53-59): only the
destructive toast fires; no state is touched. -/
def uploadOnFailure (st : PageState) : PageState × List Effect :=
  (st, [Effect.toast "Hata" "Dosya yüklenemedi" true])

/-- Settlement of one upload round trip: react-query routes the fetch
outcome to `onSuccess` or `onError`. -/
def uploadFlow (cfg : PageCfg) (st : PageState) (o : FetchOutcome) :
    PageState × List Effect :=
  if mutationSucceeds o then uploadOnSuccess cfg st else uploadOnFailure st

/-- Embedding of the delete `mutationFn`'s request construction (line 65):
`fetch("/api/music-files/" + id, − method: "DELETE" −)`. -/
def deleteMutationFn (id : String) : Request :=
  Request.delete ("/api/music-files/" ++ id)

/-- Embedding of `deleteMutation.onSuccess` (lines 70-76): invalidate the
list query and toast the confirmation; the displayed list itself is only
refreshed by the refetch, never edited locally. -/
def deleteOnSuccess (cfg : PageCfg) (st : PageState) :
    PageState × List Effect :=
  (st, [Effect.invalidate "/api/music-files",
    Effect.toast "Başarılı" cfg.deleteSuccessMsg false])

/-- Embedding of `deleteMutation.onError` (lines 77-83): only the
destructive toast fires; no state (in particular no displayed row) is
touched. -/
def deleteOnFailure (st : PageState) : PageState × List Effect :=
  (st, [Effect.toast "Hata" "Dosya silinemedi" true])

/-- Settlement of one delete round trip. -/
def deleteFlow (cfg : PageCfg) (st : PageState) (o : FetchOutcome) :
    PageState × List Effect :=
  if mutationSucceeds o then deleteOnSuccess cfg st else deleteOnFailure st

/-- Two takeWhile scans agree when the predicates agree on every element. -/
theorem takeWhile_congr_on (p q : Char → Bool) (l : List Char)
    (h : ∀ c ∈ l, p c = q c) : l.takeWhile p = l.takeWhile q := by
  induction l with
  | nil => rfl
  | cons c cs ih =>
    have hc : p c = q c := h c (List.mem_cons_self c cs)
    have hcs : ∀ x ∈ cs, p x = q x := fun x hx => h x (List.mem_cons_of_mem c hx)
    rw [List.takeWhile_cons, List.takeWhile_cons, hc, ih hcs]

/-- Two dropWhile scans agree when the predicates agree on every element. -/
theorem dropWhile_congr_on (p q : Char → Bool) (l : List Char)
    (h : ∀ c ∈ l, p c = q c) : l.dropWhile p = l.dropWhile q := by
  induction l with
  | nil => rfl
  | cons c cs ih =>
    have hc : p c = q c := h c (List.mem_cons_self c cs)
    have hcs : ∀ x ∈ cs, p x = q x := fun x hx => h x (List.mem_cons_of_mem c hx)
    rw [List.dropWhile_cons, List.dropWhile_cons, hc, ih hcs]

/-- On a string without slashes — every file name a browser file picker can
deliver — the regex-based `stripExt` of the source computes exactly the
spec's "longest trailing dot-free extension removed". -/
theorem stripExt_eq_specStripName (s : String) (hs : ∀ c ∈ s.data, c ≠ '/') :
    stripExt s = specStripName s := by
  have hpq : ∀ c ∈ s.data.reverse, extChar c = specExtChar c := by
    intro c hc
    have h1 : c ≠ '/' := hs c (List.mem_reverse.mp hc)
    have h2 : (c != '/') = true := by simpa using h1
    simp [extChar, specExtChar, h2]
  unfold stripExt specStripName
  rw [takeWhile_congr_on _ _ _ hpq, dropWhile_congr_on _ _ _ hpq]

/-- Claim C3: for every accepted file selection (MIME type in the allow-set)
whose file name contains no slash, the auto-derived draft name is the file
name with its final `.ext` suffix removed, where the stripped extension is
the longest trailing dot-free run — the reading of the spec captured by
`specStripName`. -/
theorem auto_name_strips_extension (st : PageState) (file : JsFile)
    (rest : List JsFile) (hMime : allowedTypes.contains file.type = true)
    (hName : ∀ c ∈ file.name.data, c ≠ '/') :
    (handleFileSelect st (file :: rest)).1.nameField = specStripName file.name := by
  have hm : file.type ∈ allowedTypes := by simpa using hMime
  simp [handleFileSelect, hm, stripExt_eq_specStripName file.name hName]

/-- Witness for C3: selecting `zeybek.mp3` (an allowed MIME type) derives
the draft name `zeybek`. -/
theorem auto_name_strips_extension_witness :
    (handleFileSelect initialState [⟨"zeybek.mp3", "audio/mpeg"⟩]).1.nameField =
      specStripName "zeybek.mp3" ∧ specStripName "zeybek.mp3" = "zeybek" :=
  ⟨auto_name_strips_extension initialState ⟨"zeybek.mp3", "audio/mpeg"⟩ []
    (by decide) (by decide), by decide⟩

/-- Claim C4: a selected file whose MIME type is outside the allow-set
leaves the whole page state (in particular the draft) unchanged and fires
only the destructive error toast. -/
theorem reject_bad_mime (st : PageState) (file : JsFile) (rest : List JsFile)
    (h : allowedTypes.contains file.type = false) :
    handleFileSelect st (file :: rest) =
      (st, [Effect.toast "Hata" "Sadece MP3 ve MP4 dosyaları kabul edilir" true]) := by
  have hm : file.type ∉ allowedTypes := by simpa using h
  simp [handleFileSelect, hm]

/-- Witness for C4: selecting a `text/plain` file is rejected with the
error toast and the state is untouched. -/
theorem reject_bad_mime_witness :
    handleFileSelect initialState [⟨"notes.txt", "text/plain"⟩] =
      (initialState,
       [Effect.toast "Hata" "Sadece MP3 ve MP4 dosyaları kabul edilir" true]) :=
  reject_bad_mime initialState ⟨"notes.txt", "text/plain"⟩ [] (by decide)

/-- Claim C5: submitting with no selected file, or with a name whose trim is
empty, fires only the destructive error toast — no request effect is
dispatched and the state is unchanged. -/
theorem upload_blocked_without_file_or_name (cfg : PageCfg) (st : PageState)
    (h : st.selectedFile = none ∨ jsTrim st.nameField = "") :
    handleUpload cfg st =
      (st, [Effect.toast "Hata" "Lütfen dosya seçin ve isim girin" true]) := by
  rcases h with h | h
  · simp [handleUpload, h]
  · cases hf : st.selectedFile with
    | none => simp [handleUpload, hf]
    | some f => simp [handleUpload, hf, h]

/-- Witness for C5: submitting with a file selected but a whitespace-only
name is blocked with the error toast and no request. -/
theorem upload_blocked_without_file_or_name_witness :
    handleUpload marchesCfg
      { initialState with selectedFile := some ⟨"a.mp3", "audio/mpeg"⟩,
                          nameField := "   " } =
    ({ initialState with selectedFile := some ⟨"a.mp3", "audio/mpeg"⟩,
                         nameField := "   " },
     [Effect.toast "Hata" "Lütfen dosya seçin ve isim girin" true]) :=
  upload_blocked_without_file_or_name marchesCfg _ (Or.inr (by decide))

/-- Claim C10: a change event carrying no file (null or empty file list)
leaves the entire page state unchanged and fires no effect at all. -/
theorem empty_selection_is_noop (st : PageState) :
    handleFileSelect st [] = (st, []) := rfl

/-- Claim C1: the two playback toggles follow the two-state machine — a
click on the currently playing id pauses the shared element and clears the
marker; any other click (marker empty or a different id) assigns the
element's source, starts playback and marks the clicked id; and the
element's end-of-playback and error callbacks reset the marker to empty
from any state. -/
theorem playback_toggle_machine (st : PageState) (url id : String) :
    (st.playingAudio = some id →
      handlePlay url id st =
        { st with audioEl := { st.audioEl with playing := false },
                  playingAudio := none }) ∧
    (st.playingAudio ≠ some id →
      handlePlay url id st =
        { st with audioEl := { src := some url, playing := true },
                  playingAudio := some id }) ∧
    (st.playingVideo = some id →
      handlePlayVideo url id st =
        { st with videoEl := { st.videoEl with playing := false },
                  playingVideo := none }) ∧
    (st.playingVideo ≠ some id →
      handlePlayVideo url id st =
        { st with videoEl := { src := some url, playing := true },
                  playingVideo := some id }) ∧
    (audioOnEnded st).playingAudio = none ∧
    (audioOnPlaybackError st).playingAudio = none ∧
    (videoOnEnded st).playingVideo = none ∧
    (videoOnPlaybackError st).playingVideo = none := by
  refine ⟨fun h => ?_, fun h => ?_, fun h => ?_, fun h => ?_, rfl, rfl, rfl, rfl⟩
  · simp [handlePlay, h]
  · simp [handlePlay, h]
  · simp [handlePlayVideo, h]
  · simp [handlePlayVideo, h]

/-- Witness for C1: from the mount state a click starts playback of the
clicked id, and a second click on the playing id pauses and clears the
marker. -/
theorem playback_toggle_machine_witness :
    (handlePlay "/uploads/a.mp3" "7" initialState =
      { initialState with
          audioEl := { src := some "/uploads/a.mp3", playing := true },
          playingAudio := some "7" }) ∧
    (handlePlayVideo "/videos/marches/v.mp4" "9"
        { initialState with playingVideo := some "9" } =
      { initialState with playingVideo := none }) :=
  ⟨(playback_toggle_machine initialState "/uploads/a.mp3" "7").2.1 (by decide),
   (playback_toggle_machine { initialState with playingVideo := some "9" }
      "/videos/marches/v.mp4" "9").2.2.1 rfl⟩

/-- Claim C6: when the upload settles successfully, the draft is fully
cleared — selected file, name field and file input control — and the
uploaded-files list query is invalidated. -/
theorem upload_success_resets_draft (cfg : PageCfg) (st : PageState)
    (o : FetchOutcome) (h : mutationSucceeds o = true) :
    (uploadFlow cfg st o).1.selectedFile = none ∧
    (uploadFlow cfg st o).1.nameField = "" ∧
    (uploadFlow cfg st o).1.fileInputValue = "" ∧
    Effect.invalidate "/api/music-files" ∈ (uploadFlow cfg st o).2 := by
  simp [uploadFlow, h, uploadOnSuccess]

/-- Witness for C6: a 2xx upload from a dirty draft state leaves an empty
name field. -/
theorem upload_success_resets_draft_witness :
    (uploadFlow marchesCfg
      { initialState with selectedFile := some ⟨"zeybek.mp3", "audio/mpeg"⟩,
                          nameField := "zeybek" }
      (FetchOutcome.response true)).1.nameField = "" :=
  (upload_success_resets_draft marchesCfg
    { initialState with selectedFile := some ⟨"zeybek.mp3", "audio/mpeg"⟩,
                        nameField := "zeybek" }
    (FetchOutcome.response true) rfl).2.1

/-- Claim C7: when the upload fails (non-2xx response or network error),
only the destructive error toast fires and the page state — in particular
the selected file and the name — is preserved unchanged. -/
theorem upload_failure_preserves_draft (cfg : PageCfg) (st : PageState)
    (o : FetchOutcome) (h : mutationSucceeds o = false) :
    uploadFlow cfg st o =
      (st, [Effect.toast "Hata" "Dosya yüklenemedi" true]) := by
  simp [uploadFlow, h, uploadOnFailure]

/-- Witness for C7: a network error leaves a dirty draft untouched and
toasts the error. -/
theorem upload_failure_preserves_draft_witness :
    uploadFlow marchesCfg
      { initialState with selectedFile := some ⟨"zeybek.mp3", "audio/mpeg"⟩,
                          nameField := "zeybek" }
      FetchOutcome.networkError =
    ({ initialState with selectedFile := some ⟨"zeybek.mp3", "audio/mpeg"⟩,
                         nameField := "zeybek" },
     [Effect.toast "Hata" "Dosya yüklenemedi" true]) :=
  upload_failure_preserves_draft marchesCfg _ FetchOutcome.networkError rfl

/-- Claim C8: delete issues `DELETE /api/music-files/` followed by the id;
a successful round trip invalidates the list query and toasts the
confirmation, and a failed one (for example a 404) only toasts the error,
leaving the whole state — including the displayed list — unchanged. -/
theorem delete_request_and_outcomes (cfg : PageCfg) (st : PageState)
    (id : String) (o : FetchOutcome) :
    deleteMutationFn id = Request.delete ("/api/music-files/" ++ id) ∧
    (mutationSucceeds o = true →
      deleteFlow cfg st o =
        (st, [Effect.invalidate "/api/music-files",
              Effect.toast "Başarılı" cfg.deleteSuccessMsg false])) ∧
    (mutationSucceeds o = false →
      deleteFlow cfg st o =
        (st, [Effect.toast "Hata" "Dosya silinemedi" true])) := by
  refine ⟨rfl, fun h => ?_, fun h => ?_⟩ <;>
    simp [deleteFlow, h, deleteOnSuccess, deleteOnFailure]

/-- Witness for C8: deleting id `42` targets `/api/music-files/42`, and a
404 response leaves the state unchanged with only the error toast. -/
theorem delete_request_and_outcomes_witness :
    deleteMutationFn "42" = Request.delete "/api/music-files/42" ∧
    deleteFlow marchesCfg initialState (FetchOutcome.response false) =
      (initialState, [Effect.toast "Hata" "Dosya silinemedi" true]) :=
  ⟨(delete_request_and_outcomes marchesCfg initialState "42"
      FetchOutcome.networkError).1,
   (delete_request_and_outcomes marchesCfg initialState "42"
      (FetchOutcome.response false)).2.2 rfl⟩

/-- Counterexample to claim C2: on the Marches page a favorite track with a
missing filename does not complete normally with an informational message —
the click site passes the raw filename, so the handler reads a property of
`undefined` and throws a `TypeError`. -/
theorem favorite_missing_filename_counterexample :
    onMarchFavoriteClick ⟨"m1", "Onuncu Yıl Marşı", none, "a", none⟩
      initialState = Except.error JsError.typeError := rfl

/-- Amended claim C2: on the Music page, whose click site coerces a missing
filename to the empty string, a favorite with a missing filename yields the
informational toast and no playback; on the Marches page the raw filename
is passed, so the same click throws a `TypeError` instead of showing a
message (playback is still not attempted). -/
theorem favorite_missing_filename_amended (st : PageState)
    (fav : FavoriteTrack) (h : fav.filename = none) :
    onMusicFavoriteClick fav st =
      Except.ok (st,
        [Effect.toast "Bilgi" " çalmak için gerçek dosya gerekiyor" false]) ∧
    onMarchFavoriteClick fav st = Except.error JsError.typeError := by
  constructor
  · have hE : strEndsWith "" ".mp4" = false := by decide
    simp [onMusicFavoriteClick, h, handlePlayFavorite, hE]
  · simp [onMarchFavoriteClick, h]

/-- Witness for the amended C2, at a concrete favorite with no filename. -/
theorem favorite_missing_filename_amended_witness :
    onMusicFavoriteClick ⟨"s1", "Yemen Türküsü", some "anonim", "d", none⟩
      initialState =
      Except.ok (initialState,
        [Effect.toast "Bilgi" " çalmak için gerçek dosya gerekiyor" false]) :=
  (favorite_missing_filename_amended initialState
    ⟨"s1", "Yemen Türküsü", some "anonim", "d", none⟩ rfl).1

/-- Counterexample to claim C9: clicking a favorite whose `.mp4` video is
already the currently playing one does not set the element's source to the
category URL and does not start playback — the toggle pauses it instead. -/
theorem favorite_mp4_routing_counterexample :
    (handlePlayFavorite marchesCfg "onuncu_yil.mp4" "f1"
        { initialState with playingVideo := some "f1" }).1.videoEl.src ≠
      some "/videos/marches/onuncu_yil.mp4" ∧
    (handlePlayFavorite marchesCfg "onuncu_yil.mp4" "f1"
        { initialState with playingVideo := some "f1" }).1.videoEl.playing =
      false := by
  decide

/-- Amended claim C9: for a favorite filename ending in `.mp4`, clicking
routes to the shared video element with the category directory —
`/videos/marches/` on Marches, `/videos/music/` on Music — and starts
playback, provided that favorite is not already the currently playing
video (clicking the currently playing one pauses it and clears the marker,
by the toggle of C1); for a filename not ending in `.mp4`, only the
informational toast fires and no playback is attempted. -/
theorem favorite_mp4_routing_amended (st : PageState) (f id : String) :
    (strEndsWith f ".mp4" = true → st.playingVideo ≠ some id →
      handlePlayFavorite marchesCfg f id st =
        ({ st with
             videoEl := { src := some ("/videos/marches/" ++ f), playing := true },
             playingVideo := some id }, []) ∧
      handlePlayFavorite musicCfg f id st =
        ({ st with
             videoEl := { src := some ("/videos/music/" ++ f), playing := true },
             playingVideo := some id }, [])) ∧
    (strEndsWith f ".mp4" = false →
      handlePlayFavorite marchesCfg f id st =
        (st, [Effect.toast "Bilgi" (f ++ " çalmak için gerçek dosya gerekiyor")
          false]) ∧
      handlePlayFavorite musicCfg f id st =
        (st, [Effect.toast "Bilgi" (f ++ " çalmak için gerçek dosya gerekiyor")
          false])) := by
  constructor
  · intro hv hnot
    constructor <;>
      simp [handlePlayFavorite, handlePlayVideo, hv, hnot, marchesCfg, musicCfg]
  · intro hv
    constructor <;> simp [handlePlayFavorite, hv]

/-- Witness for the amended C9: from the mount state, clicking the favorite
`onuncu_yil.mp4` on the Marches page sets the video source to
`/videos/marches/onuncu_yil.mp4` and starts playback. -/
theorem favorite_mp4_routing_amended_witness :
    handlePlayFavorite marchesCfg "onuncu_yil.mp4" "f1" initialState =
      ({ initialState with
           videoEl := { src := some "/videos/marches/onuncu_yil.mp4",
                        playing := true },
           playingVideo := some "f1" }, []) :=
  ((favorite_mp4_routing_amended initialState "onuncu_yil.mp4" "f1").1
    (by decide) (by decide)).1
